import Mathlib

/-!
# provider-azuread: Terraform setup and the PermissionGrant parameters

A shallow embedding of

* `internal/clients/azuread.go`: the constants, `TerraformSetupBuilder` and `msiAuth`;
* `apis/serviceprincipaldelegated/v1beta1/zz_permissiongrant_types.go`: the struct
  `PermissionGrantParameters` with its struct tags and kubebuilder markers.

Go pointers to strings (`*string`) are `Option String`; a Go map that may be nil is an
`Option ConfigMap`; the in-place update of `ps *terraform.Setup` is explicit state passing;
a Go runtime panic is the outcome `Outcome.panicked`.
-/

namespace AzureAD

/-! ## Errors (github.com/pkg/errors) -/

/-- A Go error value as built by `errors.New` and `errors.Wrap`. -/
inductive GoError where
  | New (message : String)
  | Wrap (cause : GoError) (message : String)
  deriving DecidableEq, Repr

/-- The method `Error()`: `errors.New(m)` prints `m`, and `errors.Wrap(e, m)` prints
`m`, a colon, a blank and then the message of `e`. -/
def GoError.Error : GoError → String
  | .New m => m
  | .Wrap c m => m ++ ": " ++ c.Error

/-! ## Constants of `internal/clients/azuread.go` -/

def errNoProviderConfig : String := "no providerConfigRef provided"
def errGetProviderConfig : String := "cannot get referenced ProviderConfig"
def errTrackUsage : String := "cannot track ProviderConfig usage"
def errExtractCredentials : String := "cannot extract credentials"
def errTenantIDNotSet : String :=
  "tenant ID must be set in ProviderConfig when credential source is InjectedIdentity, OIDCTokenFile or Upbound"
def errUnmarshalCredentials : String := "cannot unmarshal azuread credentials as JSON"
def keySubscriptionID : String := "subscription_id"
def keyUseMSI : String := "use_msi"
def keyMSIEndpoint : String := "msi_endpoint"
def keyEnvironment : String := "environment"
def keyTerraformClientID : String := "client_id"
def keyTerraformClientSecret : String := "client_secret"
def keyTerraformTenantID : String := "tenant_id"
def keyTerraformFeatures : String := "features"
def keySkipProviderRegistration : String := "skip_provider_registration"

/-! ## The configuration map `map[string]interface{}` -/

/-- A value of type `interface{}` stored in the configuration map: a Go string, or any
other dynamic value (identified by a tag). -/
inductive Value where
  | str (s : String)
  | other (tag : Nat)
  deriving DecidableEq, Repr

/-- A non-nil Go map from strings to `interface{}`, as an association list in which the
first entry of a key is the one that counts. -/
abbrev ConfigMap := List (String × Value)

/-- The map literal `map[string]interface{}{}`. -/
def ConfigMap.empty : ConfigMap := []

/-- The lookup `m[k]`, with `none` for an absent key. -/
def ConfigMap.get (m : ConfigMap) (k : String) : Option Value :=
  match m with
  | [] => none
  | (k', v) :: rest => if k' = k then some v else ConfigMap.get rest k

/-- The map without its entries of key `k`. -/
def ConfigMap.erase (m : ConfigMap) (k : String) : ConfigMap :=
  match m with
  | [] => []
  | (k', v) :: rest =>
    if k' = k then ConfigMap.erase rest k else (k', v) :: ConfigMap.erase rest k

/-- The assignment `m[k] = v`: the entry of `k`, if any, is replaced. -/
def ConfigMap.set (m : ConfigMap) (k : String) (v : Value) : ConfigMap :=
  (k, v) :: m.erase k

/-- The map after `if p != nil { m[k] = *p }`; the effect of `Setup.setOptional` on the map. -/
def ConfigMap.setOptional (m : ConfigMap) (k : String) (p : Option String) : ConfigMap :=
  match p with
  | none => m
  | some s => m.set k (.str s)

/-- The keys present in the map. -/
def ConfigMap.keys (m : ConfigMap) : List String := m.map Prod.fst

/-! ## Kubernetes and Crossplane types used by the setup function -/

/-- Modelled from the spec: the credential block of `v1beta1.ProviderConfig`, whose Go
declaration is outside the two source files; only the credential source the error message
of `errTenantIDNotSet` speaks about is kept. -/
structure ProviderCredentials where
  Source : String
  deriving DecidableEq, Repr

/-- Modelled from the spec: `v1beta1.ProviderConfigSpec`, whose Go declaration is outside the
two source files. The four pointer fields are the ones `msiAuth` reads. -/
structure ProviderConfigSpec where
  Credentials : ProviderCredentials
  TenantID : Option String
  MSIEndpoint : Option String
  ClientID : Option String
  Environment : Option String
  deriving DecidableEq, Repr

/-- Modelled from the spec: `v1beta1.ProviderConfig`, reduced to its name and its `Spec`. -/
structure ProviderConfig where
  Name : String
  Spec : ProviderConfigSpec
  deriving DecidableEq, Repr

/-- The reference `xpv1.Reference` returned by `GetProviderConfigReference`. -/
structure Reference where
  Name : String
  deriving DecidableEq, Repr

/-- A managed resource (`resource.Managed`): its name and what
`GetProviderConfigReference()` returns, `none` being the nil pointer. -/
structure Managed where
  Name : String
  ProviderConfigReference : Option Reference
  deriving DecidableEq, Repr

/-- The method `mg.GetProviderConfigReference()`. -/
def Managed.GetProviderConfigReference (mg : Managed) : Option Reference :=
  mg.ProviderConfigReference

/-- The key `types.NamespacedName`. -/
structure NamespacedName where
  Namespace : String
  Name : String
  deriving DecidableEq, Repr

/-- A call made on the Kubernetes client, directly (`Get`) or through the usage tracker
built on it (`Track`). -/
inductive ClientCall where
  | Get (key : NamespacedName)
  | Track (mg : Managed)
  deriving DecidableEq, Repr

/-- The Kubernetes client as the setup function sees it: `Get` either fails with an error or
fills the ProviderConfig, and `Track` of the usage tracker either fails (`some e`) or
succeeds (`none`). -/
structure Client where
  Get : NamespacedName → Except GoError ProviderConfig
  Track : Managed → Option GoError

/-! ## Terraform setup (github.com/upbound/upjet/pkg/terraform) -/

/-- The struct `terraform.ProviderRequirement`. -/
structure ProviderRequirement where
  Source : String
  Version : String
  deriving DecidableEq, Repr

/-- The struct `terraform.Setup` with the fields the builder sets; `σ` is the type of the
provider scheduler, and `Configuration = none` is the nil map. -/
structure Setup (σ : Type) where
  Version : String
  Requirement : ProviderRequirement
  Configuration : Option ConfigMap
  Scheduler : σ
  deriving DecidableEq, Repr

/-- What running a piece of Go code gives: it returns a value, or it panics. -/
inductive Outcome (α : Type) where
  | returned (a : α)
  | panicked
  deriving DecidableEq, Repr

/-- The assignment `ps.Configuration[k] = v`, which panics on a nil map. -/
def Setup.setConfiguration {σ : Type} (ps : Setup σ) (k : String) (v : Value) :
    Outcome (Setup σ) :=
  match ps.Configuration with
  | none => .panicked
  | some m => .returned { ps with Configuration := some (m.set k v) }

/-- The statement `if p != nil { ps.Configuration[k] = *p }`. -/
def Setup.setOptional {σ : Type} (ps : Setup σ) (k : String) (p : Option String) :
    Outcome (Setup σ) :=
  match p with
  | none => .returned ps
  | some s => ps.setConfiguration k (.str s)

/-- Sequencing of Go statements: a panic ends the run. -/
def Outcome.andThen {α β : Type} (o : Outcome α) (f : α → Outcome β) : Outcome β :=
  match o with
  | .panicked => .panicked
  | .returned a => f a

/-- The function `msiAuth(pc, ps)`: the updated `*ps` and the returned error (`none` is the
nil error). The test `len(*pc.Spec.TenantID) == 0` is on the length in bytes of the string. -/
def msiAuth {σ : Type} (pc : ProviderConfig) (ps : Setup σ) :
    Outcome (Setup σ × Option GoError) :=
  match pc.Spec.TenantID with
  | none => .returned (ps, some (.New errTenantIDNotSet))
  | some tenantID =>
    if tenantID.utf8ByteSize = 0 then
      .returned (ps, some (.New errTenantIDNotSet))
    else
      (ps.setConfiguration keyTerraformTenantID (.str tenantID)).andThen fun ps1 =>
      (ps1.setConfiguration keyUseMSI (.str "true")).andThen fun ps2 =>
      (ps2.setOptional keyMSIEndpoint pc.Spec.MSIEndpoint).andThen fun ps3 =>
      (ps3.setOptional keyTerraformClientID pc.Spec.ClientID).andThen fun ps4 =>
      (ps4.setOptional keyEnvironment pc.Spec.Environment).andThen fun ps5 =>
      .returned (ps5, none)

/-- What one run of the setup function gives back and does: the returned `terraform.Setup`,
the returned error, and the calls made on the client, in order. -/
structure SetupResult (σ : Type) where
  ps : Setup σ
  err : Option GoError
  calls : List ClientCall
  deriving DecidableEq, Repr

/-- The type `terraform.SetupFn`, without the context argument. -/
abbrev SetupFn (σ : Type) := Client → Managed → Outcome (SetupResult σ)

/-- The function `TerraformSetupBuilder`. -/
def TerraformSetupBuilder {σ : Type} (version providerSource providerVersion : String)
    (scheduler : σ) : SetupFn σ :=
  fun client mg =>
    let ps : Setup σ :=
      { Version := version
        Requirement := { Source := providerSource, Version := providerVersion }
        Configuration := none
        Scheduler := scheduler }
    match mg.GetProviderConfigReference with
    | none => .returned { ps := ps, err := some (.New errNoProviderConfig), calls := [] }
    | some configRef =>
      let key : NamespacedName := { Namespace := "", Name := configRef.Name }
      match client.Get key with
      | .error e =>
        .returned { ps := ps, err := some (.Wrap e errGetProviderConfig), calls := [.Get key] }
      | .ok pc =>
        match client.Track mg with
        | some e =>
          .returned { ps := ps, err := some (.Wrap e errTrackUsage),
                      calls := [.Get key, .Track mg] }
        | none =>
          let ps1 : Setup σ := { ps with Configuration := some ConfigMap.empty }
          (msiAuth pc ps1).andThen fun r =>
            .returned { ps := r.1, err := r.2, calls := [.Get key, .Track mg] }

/-! ## `PermissionGrantParameters` (zz_permissiongrant_types.go) -/

/-- The selector `v1.Selector`, reduced to its label matcher. -/
structure Selector where
  MatchLabels : List (String × String)
  deriving DecidableEq, Repr

/-- The struct `PermissionGrantParameters`: a nil pointer or nil slice is `none`. -/
structure PermissionGrantParameters where
  ClaimValues : Option (List (Option String))
  ResourceServicePrincipalObjectID : Option String
  ResourceServicePrincipalObjectIDRef : Option Reference
  ResourceServicePrincipalObjectIDSelector : Option Selector
  ServicePrincipalObjectID : Option String
  ServicePrincipalObjectIDRef : Option Reference
  ServicePrincipalObjectIDSelector : Option Selector
  UserObjectID : Option String
  deriving DecidableEq, Repr

/-- The marker `+kubebuilder:validation:Required` or `+kubebuilder:validation:Optional`. -/
inductive Marker where
  | Required
  | Optional
  deriving DecidableEq, Repr

/-- One field declaration of the struct: its Go name, its validation marker, the values of
the `json` and `tf` keys of its struct tag, and whether the field of a given value is empty
in the sense of `omitempty` (a nil pointer, a slice of length 0). -/
structure FieldDecl where
  goName : String
  marker : Marker
  jsonTag : String
  tfTag : String
  isEmptyValue : PermissionGrantParameters → Bool

/-- The declaration of the field `ClaimValues`. -/
def PermissionGrantParameters.fieldClaimValues : FieldDecl :=
  { goName := "ClaimValues"
    marker := .Required
    jsonTag := "claimValues"
    tfTag := "claim_values,omitempty"
    isEmptyValue := fun p => (p.ClaimValues.getD []).length == 0 }

/-- The declaration of the field `ResourceServicePrincipalObjectID`. -/
def PermissionGrantParameters.fieldResourceServicePrincipalObjectID : FieldDecl :=
  { goName := "ResourceServicePrincipalObjectID"
    marker := .Optional
    jsonTag := "resourceServicePrincipalObjectId,omitempty"
    tfTag := "resource_service_principal_object_id,omitempty"
    isEmptyValue := fun p => p.ResourceServicePrincipalObjectID.isNone }

/-- The declaration of the field `ResourceServicePrincipalObjectIDRef`. -/
def PermissionGrantParameters.fieldResourceServicePrincipalObjectIDRef : FieldDecl :=
  { goName := "ResourceServicePrincipalObjectIDRef"
    marker := .Optional
    jsonTag := "resourceServicePrincipalObjectIdRef,omitempty"
    tfTag := "-"
    isEmptyValue := fun p => p.ResourceServicePrincipalObjectIDRef.isNone }

/-- The declaration of the field `ResourceServicePrincipalObjectIDSelector`. -/
def PermissionGrantParameters.fieldResourceServicePrincipalObjectIDSelector : FieldDecl :=
  { goName := "ResourceServicePrincipalObjectIDSelector"
    marker := .Optional
    jsonTag := "resourceServicePrincipalObjectIdSelector,omitempty"
    tfTag := "-"
    isEmptyValue := fun p => p.ResourceServicePrincipalObjectIDSelector.isNone }

/-- The declaration of the field `ServicePrincipalObjectID`. -/
def PermissionGrantParameters.fieldServicePrincipalObjectID : FieldDecl :=
  { goName := "ServicePrincipalObjectID"
    marker := .Optional
    jsonTag := "servicePrincipalObjectId,omitempty"
    tfTag := "service_principal_object_id,omitempty"
    isEmptyValue := fun p => p.ServicePrincipalObjectID.isNone }

/-- The declaration of the field `ServicePrincipalObjectIDRef`. -/
def PermissionGrantParameters.fieldServicePrincipalObjectIDRef : FieldDecl :=
  { goName := "ServicePrincipalObjectIDRef"
    marker := .Optional
    jsonTag := "servicePrincipalObjectIdRef,omitempty"
    tfTag := "-"
    isEmptyValue := fun p => p.ServicePrincipalObjectIDRef.isNone }

/-- The declaration of the field `ServicePrincipalObjectIDSelector`. -/
def PermissionGrantParameters.fieldServicePrincipalObjectIDSelector : FieldDecl :=
  { goName := "ServicePrincipalObjectIDSelector"
    marker := .Optional
    jsonTag := "servicePrincipalObjectIdSelector,omitempty"
    tfTag := "-"
    isEmptyValue := fun p => p.ServicePrincipalObjectIDSelector.isNone }

/-- The declaration of the field `UserObjectID`. -/
def PermissionGrantParameters.fieldUserObjectID : FieldDecl :=
  { goName := "UserObjectID"
    marker := .Optional
    jsonTag := "userObjectId,omitempty"
    tfTag := "user_object_id,omitempty"
    isEmptyValue := fun p => p.UserObjectID.isNone }

/-- The field declarations of `PermissionGrantParameters`, in source order. -/
def PermissionGrantParameters.fields : List FieldDecl :=
  [ PermissionGrantParameters.fieldClaimValues,
    PermissionGrantParameters.fieldResourceServicePrincipalObjectID,
    PermissionGrantParameters.fieldResourceServicePrincipalObjectIDRef,
    PermissionGrantParameters.fieldResourceServicePrincipalObjectIDSelector,
    PermissionGrantParameters.fieldServicePrincipalObjectID,
    PermissionGrantParameters.fieldServicePrincipalObjectIDRef,
    PermissionGrantParameters.fieldServicePrincipalObjectIDSelector,
    PermissionGrantParameters.fieldUserObjectID ]

/-- The pieces of a tag value between its commas. -/
def splitOnComma : List Char → List (List Char)
  | [] => [[]]
  | c :: cs =>
    match splitOnComma cs with
    | [] => [[c]]
    | piece :: pieces => if c = ',' then [] :: piece :: pieces else (c :: piece) :: pieces

/-- The name part of a tag value: what stands before the first comma. -/
def tagName (tag : String) : String :=
  String.mk ((splitOnComma tag.toList).headD [])

/-- Whether a tag value lists the option `opt` after its name. -/
def tagHasOption (tag : String) (opt : String) : Bool :=
  (splitOnComma tag.toList).tail.contains opt.toList

/-- The key under which a field appears in the JSON form. -/
def FieldDecl.jsonName (f : FieldDecl) : String := tagName f.jsonTag

/-- Whether the `json` tag of the field carries `omitempty`. -/
def FieldDecl.jsonOmitEmpty (f : FieldDecl) : Bool := tagHasOption f.jsonTag "omitempty"

/-- The Terraform attribute a field is mapped to; the tag `-` maps it to none. -/
def FieldDecl.tfAttribute (f : FieldDecl) : Option String :=
  if f.tfTag = "-" then none else some (tagName f.tfTag)

/-- Whether the JSON form of `p` has an entry for the field: a field tagged `-` never has
one, and a field with `omitempty` has none when its value is empty. -/
def FieldDecl.serialised (f : FieldDecl) (p : PermissionGrantParameters) : Bool :=
  !(decide (f.jsonTag = "-")) && !(f.jsonOmitEmpty && f.isEmptyValue p)

/-- The keys of the JSON object that `p` is marshalled to, in field order. -/
def PermissionGrantParameters.jsonKeys (p : PermissionGrantParameters) : List String :=
  (PermissionGrantParameters.fields.filter (fun f => f.serialised p)).map FieldDecl.jsonName

/-! ## Example inputs -/

/-- A ProviderConfig with a tenant ID, an empty client ID and an environment. -/
def examplePC : ProviderConfig :=
  { Name := "default"
    Spec := { Credentials := { Source := "OIDCTokenFile" }
              TenantID := some "t-1"
              MSIEndpoint := none
              ClientID := some ""
              Environment := some "public" } }

/-- The same four fields as `examplePC` under another name and credential source. -/
def examplePCSecret : ProviderConfig :=
  { Name := "other"
    Spec := { Credentials := { Source := "Secret" }
              TenantID := some "t-1"
              MSIEndpoint := none
              ClientID := some ""
              Environment := some "public" } }

/-- A setup whose configuration map already has entries. -/
def exampleSetup : Setup Nat :=
  { Version := "1.5.5"
    Requirement := { Source := "hashicorp/azuread", Version := "2.47.0" }
    Configuration := some [("tenant_id", .other 3), ("msi_endpoint", .str "http://old"),
                           ("features", .other 0)]
    Scheduler := 7 }

/-- A managed resource without a provider config reference. -/
def exampleManagedNoRef : Managed := { Name := "grant", ProviderConfigReference := none }

/-- A managed resource that refers to the ProviderConfig named `default`. -/
def exampleManaged : Managed :=
  { Name := "grant", ProviderConfigReference := some { Name := "default" } }

/-- A client that finds `examplePC` under every key and tracks usage without error. -/
def exampleClient : Client :=
  { Get := fun _ => .ok examplePC, Track := fun _ => none }

/-- A client that finds `examplePC` and whose usage tracking fails. -/
def exampleClientTrackFails : Client :=
  { Get := fun _ => .ok examplePC, Track := fun _ => some (.New "conflict") }

/-- A ProviderConfig whose tenant ID points to the empty string. -/
def examplePCEmptyTenant : ProviderConfig :=
  { Name := "default"
    Spec := { Credentials := { Source := "Secret" }
              TenantID := some ""
              MSIEndpoint := some "http://169.254.169.254"
              ClientID := none
              Environment := none } }

/-- A client that finds `examplePCEmptyTenant` and tracks usage without error. -/
def exampleClientEmptyTenant : Client :=
  { Get := fun _ => .ok examplePCEmptyTenant, Track := fun _ => none }

/-- A client whose `Get` fails; its `Track` would fail too. -/
def exampleClientGetFails : Client :=
  { Get := fun _ => .error (.New "not found"), Track := fun _ => some (.New "conflict") }

/-- Some parameters of a PermissionGrant: a reference and an empty user object ID are set. -/
def exampleParameters : PermissionGrantParameters :=
  { ClaimValues := none
    ResourceServicePrincipalObjectID := none
    ResourceServicePrincipalObjectIDRef := some { Name := "principal" }
    ResourceServicePrincipalObjectIDSelector := none
    ServicePrincipalObjectID := none
    ServicePrincipalObjectIDRef := none
    ServicePrincipalObjectIDSelector := none
    UserObjectID := some "" }

/-! ## Evaluation on the example inputs -/

theorem msiAuth_example :
    msiAuth examplePC exampleSetup =
      .returned
        ({ Version := "1.5.5"
           Requirement := { Source := "hashicorp/azuread", Version := "2.47.0" }
           Configuration := some
             [("environment", .str "public"), ("client_id", .str ""), ("use_msi", .str "true"),
              ("tenant_id", .str "t-1"), ("msi_endpoint", .str "http://old"),
              ("features", .other 0)]
           Scheduler := 7 }, none) := by
  decide

theorem msiAuth_example_emptyTenant :
    msiAuth examplePCEmptyTenant exampleSetup =
      .returned (exampleSetup, some (.New errTenantIDNotSet)) := by
  decide

theorem setup_example :
    TerraformSetupBuilder "1.5.5" "hashicorp/azuread" "2.47.0" (7 : Nat) exampleClient
        exampleManaged =
      .returned
        { ps := { Version := "1.5.5"
                  Requirement := { Source := "hashicorp/azuread", Version := "2.47.0" }
                  Configuration := some
                    [("environment", .str "public"), ("client_id", .str ""),
                     ("use_msi", .str "true"), ("tenant_id", .str "t-1")]
                  Scheduler := 7 }
          err := none
          calls := [.Get { Namespace := "", Name := "default" }, .Track exampleManaged] } := by
  decide

theorem setup_example_emptyTenant :
    TerraformSetupBuilder "1.5.5" "hashicorp/azuread" "2.47.0" (7 : Nat)
        exampleClientEmptyTenant exampleManaged =
      .returned
        { ps := { Version := "1.5.5"
                  Requirement := { Source := "hashicorp/azuread", Version := "2.47.0" }
                  Configuration := some []
                  Scheduler := 7 }
          err := some (.New errTenantIDNotSet)
          calls := [.Get { Namespace := "", Name := "default" }, .Track exampleManaged] } := by
  decide

theorem setup_example_getFails :
    TerraformSetupBuilder "1.5.5" "hashicorp/azuread" "2.47.0" (7 : Nat)
        exampleClientGetFails exampleManaged =
      .returned
        { ps := { Version := "1.5.5"
                  Requirement := { Source := "hashicorp/azuread", Version := "2.47.0" }
                  Configuration := none
                  Scheduler := 7 }
          err := some (.Wrap (.New "not found") errGetProviderConfig)
          calls := [.Get { Namespace := "", Name := "default" }] } ∧
    (GoError.Wrap (.New "not found") errGetProviderConfig).Error =
      "cannot get referenced ProviderConfig: not found" := by
  decide

theorem jsonKeys_example :
    exampleParameters.jsonKeys =
      ["claimValues", "resourceServicePrincipalObjectIdRef", "userObjectId"] := by
  decide

/-! ## Lemmas on strings and on the configuration map -/

theorem utf8ByteSize_eq_zero_iff (s : String) : s.utf8ByteSize = 0 ↔ s = "" := by
  rcases s with ⟨l⟩
  cases l with
  | nil => simp [String.utf8ByteSize, String.utf8ByteSize.go]
  | cons c cs =>
    have hc := c.utf8Size_pos
    constructor
    · intro h0
      simp only [String.utf8ByteSize, String.utf8ByteSize.go] at h0
      omega
    · intro h0
      exact absurd (congrArg String.data h0) (by simp)

theorem ConfigMap.get_empty (k : String) : ConfigMap.empty.get k = none := rfl

theorem ConfigMap.get_erase_ne (m : ConfigMap) (k k' : String) (h : k' ≠ k) :
    ConfigMap.get (m.erase k) k' = ConfigMap.get m k' := by
  induction m with
  | nil => rfl
  | cons e rest ih =>
    obtain ⟨a, v⟩ := e
    by_cases ha : a = k
    · subst ha
      have : ¬ a = k' := fun h' => h h'.symm
      simp [ConfigMap.erase, ConfigMap.get, this, ih]
    · by_cases hk : a = k'
      · subst hk
        simp [ConfigMap.erase, ConfigMap.get, ha]
      · simp [ConfigMap.erase, ConfigMap.get, ha, hk, ih]

theorem ConfigMap.get_set (m : ConfigMap) (k k' : String) (v : Value) :
    (m.set k v).get k' = if k' = k then some v else m.get k' := by
  by_cases h : k' = k
  · subst h
    simp [ConfigMap.set, ConfigMap.get]
  · have h' : ¬ k = k' := fun e => h e.symm
    simp only [ConfigMap.set, ConfigMap.get, h', h, if_false]
    exact ConfigMap.get_erase_ne m k k' h

theorem ConfigMap.get_setOptional (m : ConfigMap) (k k' : String) (p : Option String) :
    (m.setOptional k p).get k' =
      match p with
      | none => m.get k'
      | some s => if k' = k then some (.str s) else m.get k' := by
  cases p with
  | none => rfl
  | some s => simp [ConfigMap.setOptional, ConfigMap.get_set]

theorem ConfigMap.mem_keys_iff (m : ConfigMap) (k : String) :
    k ∈ m.keys ↔ (m.get k).isSome = true := by
  induction m with
  | nil => simp [ConfigMap.keys, ConfigMap.get]
  | cons e rest ih =>
    obtain ⟨a, v⟩ := e
    by_cases ha : a = k
    · simp [ConfigMap.keys, ConfigMap.get, ha]
    · have : ¬ k = a := fun h => ha h.symm
      simp only [ConfigMap.keys] at ih
      simp [ConfigMap.keys, ConfigMap.get, ha, this, ih]

/-! ## Lemmas on `msiAuth` -/

/-- With a nil or empty tenant ID, `msiAuth` returns the tenant error and leaves `ps` as it
was, whatever `ps` is. -/
theorem msiAuth_of_tenantID_unset {σ : Type} (pc : ProviderConfig) (ps : Setup σ)
    (h : pc.Spec.TenantID = none ∨ pc.Spec.TenantID = some "") :
    msiAuth pc ps = .returned (ps, some (.New errTenantIDNotSet)) := by
  rcases h with h | h <;> simp [msiAuth, h, String.utf8ByteSize, String.utf8ByteSize.go]

/-- With a non-empty tenant ID and a non-nil map, `msiAuth` returns without error and the map
is the old one after the two unconditional and the three conditional assignments. -/
theorem msiAuth_of_tenantID_set {σ : Type} (pc : ProviderConfig) (ps : Setup σ)
    (m : ConfigMap) (t : String) (hm : ps.Configuration = some m)
    (ht : pc.Spec.TenantID = some t) (hne : t ≠ "") :
    msiAuth pc ps = .returned
      ({ ps with
          Configuration := some
            (ConfigMap.setOptional
              (ConfigMap.setOptional
                (ConfigMap.setOptional
                  ((m.set keyTerraformTenantID (.str t)).set keyUseMSI (.str "true"))
                  keyMSIEndpoint pc.Spec.MSIEndpoint)
                keyTerraformClientID pc.Spec.ClientID)
              keyEnvironment pc.Spec.Environment) }, none) := by
  have hz : ¬ t.utf8ByteSize = 0 := fun h => hne ((utf8ByteSize_eq_zero_iff t).mp h)
  cases h1 : pc.Spec.MSIEndpoint <;> cases h2 : pc.Spec.ClientID <;>
    cases h3 : pc.Spec.Environment <;>
    simp [msiAuth, ht, hz, hm, h1, h2, h3, Setup.setConfiguration, Setup.setOptional,
      Outcome.andThen, ConfigMap.setOptional]

/-- On a nil map, `msiAuth` with a non-empty tenant ID panics at its first assignment. -/
theorem msiAuth_nil_map_panics {σ : Type} (pc : ProviderConfig) (ps : Setup σ) (t : String)
    (hm : ps.Configuration = none) (ht : pc.Spec.TenantID = some t) (hne : t ≠ "") :
    msiAuth pc ps = .panicked := by
  have hz : ¬ t.utf8ByteSize = 0 := fun h => hne ((utf8ByteSize_eq_zero_iff t).mp h)
  simp [msiAuth, ht, hz, hm, Setup.setConfiguration, Outcome.andThen]

/-- Every tenant ID is nil, empty, or a non-empty string. -/
theorem tenantID_cases (pc : ProviderConfig) :
    (pc.Spec.TenantID = none ∨ pc.Spec.TenantID = some "") ∨
      ∃ t, pc.Spec.TenantID = some t ∧ t ≠ "" := by
  cases h : pc.Spec.TenantID with
  | none => exact Or.inl (Or.inl rfl)
  | some t =>
    by_cases ht : t = ""
    · exact Or.inl (Or.inr (by rw [ht]))
    · exact Or.inr ⟨t, rfl, ht⟩

/-! ## The four paths of the setup function -/

theorem TerraformSetupBuilder_of_no_reference {σ : Type}
    (version providerSource providerVersion : String) (scheduler : σ) (client : Client)
    (mg : Managed) (href : mg.GetProviderConfigReference = none) :
    TerraformSetupBuilder version providerSource providerVersion scheduler client mg =
      .returned
        { ps := { Version := version
                  Requirement := { Source := providerSource, Version := providerVersion }
                  Configuration := none
                  Scheduler := scheduler }
          err := some (.New errNoProviderConfig)
          calls := [] } := by
  simp only [TerraformSetupBuilder, href]

theorem TerraformSetupBuilder_of_get_error {σ : Type}
    (version providerSource providerVersion : String) (scheduler : σ) (client : Client)
    (mg : Managed) (ref : Reference) (e : GoError)
    (href : mg.GetProviderConfigReference = some ref)
    (hget : client.Get { Namespace := "", Name := ref.Name } = .error e) :
    TerraformSetupBuilder version providerSource providerVersion scheduler client mg =
      .returned
        { ps := { Version := version
                  Requirement := { Source := providerSource, Version := providerVersion }
                  Configuration := none
                  Scheduler := scheduler }
          err := some (.Wrap e errGetProviderConfig)
          calls := [.Get { Namespace := "", Name := ref.Name }] } := by
  simp only [TerraformSetupBuilder, href, hget]

theorem TerraformSetupBuilder_of_track_error {σ : Type}
    (version providerSource providerVersion : String) (scheduler : σ) (client : Client)
    (mg : Managed) (ref : Reference) (pc : ProviderConfig) (e : GoError)
    (href : mg.GetProviderConfigReference = some ref)
    (hget : client.Get { Namespace := "", Name := ref.Name } = .ok pc)
    (htrack : client.Track mg = some e) :
    TerraformSetupBuilder version providerSource providerVersion scheduler client mg =
      .returned
        { ps := { Version := version
                  Requirement := { Source := providerSource, Version := providerVersion }
                  Configuration := none
                  Scheduler := scheduler }
          err := some (.Wrap e errTrackUsage)
          calls := [.Get { Namespace := "", Name := ref.Name }, .Track mg] } := by
  simp only [TerraformSetupBuilder, href, hget, htrack]

theorem TerraformSetupBuilder_of_tracked {σ : Type}
    (version providerSource providerVersion : String) (scheduler : σ) (client : Client)
    (mg : Managed) (ref : Reference) (pc : ProviderConfig)
    (href : mg.GetProviderConfigReference = some ref)
    (hget : client.Get { Namespace := "", Name := ref.Name } = .ok pc)
    (htrack : client.Track mg = none) :
    TerraformSetupBuilder version providerSource providerVersion scheduler client mg =
      (msiAuth pc
        { Version := version
          Requirement := { Source := providerSource, Version := providerVersion }
          Configuration := some ConfigMap.empty
          Scheduler := scheduler }).andThen fun r =>
        .returned { ps := r.1, err := r.2,
                    calls := [.Get { Namespace := "", Name := ref.Name }, .Track mg] } := by
  simp only [TerraformSetupBuilder, href, hget, htrack]

/-! ## The claims on `msiAuth` -/

/-- C1: for every ProviderConfig and every configuration map, `msiAuth` returns, and it
returns an error if and only if the tenant ID is nil or points to the empty string; the
message of that error is the text of `errTenantIDNotSet`, and with a non-empty tenant ID no
error is returned. -/
theorem msiAuth_error_iff_tenantID_unset {σ : Type} (pc : ProviderConfig) (ps : Setup σ)
    (m : ConfigMap) :
    ∃ ps1 err, msiAuth pc { ps with Configuration := some m } = .returned (ps1, err) ∧
      (err ≠ none ↔ (pc.Spec.TenantID = none ∨ pc.Spec.TenantID = some "")) ∧
      (err ≠ none → err.map GoError.Error = some
        "tenant ID must be set in ProviderConfig when credential source is InjectedIdentity, OIDCTokenFile or Upbound") ∧
      (∀ t, pc.Spec.TenantID = some t → t ≠ "" → err = none) := by
  rcases tenantID_cases pc with h | ⟨t, ht, hne⟩
  · refine ⟨_, _, msiAuth_of_tenantID_unset pc _ h, ?_, ?_, ?_⟩
    · simp [h]
    · intro _
      rfl
    · intro t ht hne
      rcases h with h | h
      · rw [h] at ht
        cases ht
      · rw [h] at ht
        exact absurd (Option.some.inj ht).symm hne
  · refine ⟨_, _, msiAuth_of_tenantID_set pc _ m t rfl ht hne, ?_, ?_, ?_⟩
    · simp [ht, hne]
    · intro h
      exact absurd rfl h
    · intro _ _ _
      rfl

/-- C2: with a non-empty tenant ID, `msiAuth` on the empty map gives a map whose keys are
exactly `tenant_id`, `use_msi`, and `msi_endpoint`, `client_id`, `environment` each if and
only if its field is non-nil; `subscription_id`, `client_secret`, `features` and
`skip_provider_registration` are absent; and this is the configuration the setup function
returns when `Get` finds the ProviderConfig and `Track` succeeds. -/
theorem msiAuth_empty_map_keys {σ : Type} (pc : ProviderConfig) (ps : Setup σ) (t : String)
    (ht : pc.Spec.TenantID = some t) (hne : t ≠ "") :
    ∃ ps1 m1, msiAuth pc { ps with Configuration := some ConfigMap.empty } =
        .returned (ps1, none) ∧
      ps1.Configuration = some m1 ∧
      (∀ k, k ∈ m1.keys ↔
        (k = "tenant_id" ∨ k = "use_msi" ∨
          (k = "msi_endpoint" ∧ pc.Spec.MSIEndpoint ≠ none) ∨
          (k = "client_id" ∧ pc.Spec.ClientID ≠ none) ∨
          (k = "environment" ∧ pc.Spec.Environment ≠ none))) ∧
      "subscription_id" ∉ m1.keys ∧ "client_secret" ∉ m1.keys ∧ "features" ∉ m1.keys ∧
      "skip_provider_registration" ∉ m1.keys ∧
      (∀ (version providerSource providerVersion : String) (scheduler : σ) (client : Client)
          (mg : Managed) (ref : Reference),
        mg.GetProviderConfigReference = some ref →
        client.Get { Namespace := "", Name := ref.Name } = .ok pc →
        client.Track mg = none →
        ∃ r, TerraformSetupBuilder version providerSource providerVersion scheduler client mg =
            .returned r ∧ r.err = none ∧ r.ps.Configuration = some m1) := by
  have hkeys : ∀ k, k ∈ ConfigMap.keys
        (ConfigMap.setOptional
          (ConfigMap.setOptional
            (ConfigMap.setOptional
              ((ConfigMap.empty.set keyTerraformTenantID (.str t)).set keyUseMSI (.str "true"))
              keyMSIEndpoint pc.Spec.MSIEndpoint)
            keyTerraformClientID pc.Spec.ClientID)
          keyEnvironment pc.Spec.Environment) ↔
        (k = "tenant_id" ∨ k = "use_msi" ∨
          (k = "msi_endpoint" ∧ pc.Spec.MSIEndpoint ≠ none) ∨
          (k = "client_id" ∧ pc.Spec.ClientID ≠ none) ∨
          (k = "environment" ∧ pc.Spec.Environment ≠ none)) := by
    intro k
    rw [ConfigMap.mem_keys_iff]
    simp only [ConfigMap.get_setOptional, ConfigMap.get_set, ConfigMap.get_empty,
      keyTerraformTenantID, keyUseMSI, keyMSIEndpoint, keyTerraformClientID, keyEnvironment]
    cases pc.Spec.MSIEndpoint <;> cases pc.Spec.ClientID <;> cases pc.Spec.Environment <;>
      simp <;> split_ifs <;> simp_all
  refine ⟨_, _, msiAuth_of_tenantID_set pc _ ConfigMap.empty t rfl ht hne, rfl, hkeys,
    ?_, ?_, ?_, ?_, ?_⟩
  · rw [hkeys]; simp
  · rw [hkeys]; simp
  · rw [hkeys]; simp
  · rw [hkeys]; simp
  · intro version providerSource providerVersion scheduler client mg ref href hget htrack
    rw [TerraformSetupBuilder_of_tracked version providerSource providerVersion scheduler
      client mg ref pc href hget htrack,
      msiAuth_of_tenantID_set pc _ ConfigMap.empty t rfl ht hne]
    exact ⟨_, rfl, rfl, rfl⟩

/-- The witness of C2: `examplePC` on the empty map. -/
theorem msiAuth_empty_map_keys_witness :
    ∃ ps1 m1, msiAuth examplePC { exampleSetup with Configuration := some ConfigMap.empty } =
        .returned (ps1, none) ∧
      ps1.Configuration = some m1 ∧
      (∀ k, k ∈ m1.keys ↔
        (k = "tenant_id" ∨ k = "use_msi" ∨
          (k = "msi_endpoint" ∧ examplePC.Spec.MSIEndpoint ≠ none) ∨
          (k = "client_id" ∧ examplePC.Spec.ClientID ≠ none) ∨
          (k = "environment" ∧ examplePC.Spec.Environment ≠ none))) ∧
      "subscription_id" ∉ m1.keys ∧ "client_secret" ∉ m1.keys ∧ "features" ∉ m1.keys ∧
      "skip_provider_registration" ∉ m1.keys ∧
      (∀ (version providerSource providerVersion : String) (scheduler : Nat) (client : Client)
          (mg : Managed) (ref : Reference),
        mg.GetProviderConfigReference = some ref →
        client.Get { Namespace := "", Name := ref.Name } = .ok examplePC →
        client.Track mg = none →
        ∃ r, TerraformSetupBuilder version providerSource providerVersion scheduler client mg =
            .returned r ∧ r.err = none ∧ r.ps.Configuration = some m1) :=
  msiAuth_empty_map_keys examplePC exampleSetup "t-1" rfl (by decide)

/-- C3: with a non-empty tenant ID, after `msiAuth` the map holds the tenant ID under
`tenant_id` and the string `true` under `use_msi`, whatever the optional fields are and
whatever the map held before. -/
theorem msiAuth_sets_tenant_id_and_use_msi {σ : Type} (pc : ProviderConfig) (ps : Setup σ)
    (m : ConfigMap) (t : String) (ht : pc.Spec.TenantID = some t) (hne : t ≠ "") :
    ∃ ps1 m1, msiAuth pc { ps with Configuration := some m } = .returned (ps1, none) ∧
      ps1.Configuration = some m1 ∧
      m1.get "tenant_id" = some (.str t) ∧
      m1.get "use_msi" = some (.str "true") := by
  refine ⟨_, _, msiAuth_of_tenantID_set pc _ m t rfl ht hne, rfl, ?_, ?_⟩
  · simp only [ConfigMap.get_setOptional, ConfigMap.get_set, keyTerraformTenantID, keyUseMSI,
      keyMSIEndpoint, keyTerraformClientID, keyEnvironment]
    cases pc.Spec.MSIEndpoint <;> cases pc.Spec.ClientID <;> cases pc.Spec.Environment <;>
      simp
  · simp only [ConfigMap.get_setOptional, ConfigMap.get_set, keyTerraformTenantID, keyUseMSI,
      keyMSIEndpoint, keyTerraformClientID, keyEnvironment]
    cases pc.Spec.MSIEndpoint <;> cases pc.Spec.ClientID <;> cases pc.Spec.Environment <;>
      simp

/-- The witness of C3: `examplePC` on a map that already has a value under `tenant_id`. -/
theorem msiAuth_sets_tenant_id_and_use_msi_witness :
    ∃ ps1 m1, msiAuth examplePC
        { exampleSetup with Configuration := some [("tenant_id", .other 3)] } =
          .returned (ps1, none) ∧
      ps1.Configuration = some m1 ∧
      m1.get "tenant_id" = some (.str "t-1") ∧
      m1.get "use_msi" = some (.str "true") :=
  msiAuth_sets_tenant_id_and_use_msi examplePC exampleSetup [("tenant_id", .other 3)] "t-1"
    rfl (by decide)

/-- C4: with a non-empty tenant ID, after `msiAuth` each optional field that is non-nil is
found unchanged under its key (`msi_endpoint`, `client_id`, `environment`), the empty string
included, and the entry under the key of a nil field is what it was before the call. -/
theorem msiAuth_copies_optional_fields {σ : Type} (pc : ProviderConfig) (ps : Setup σ)
    (m : ConfigMap) (t : String) (ht : pc.Spec.TenantID = some t) (hne : t ≠ "") :
    ∃ ps1 m1, msiAuth pc { ps with Configuration := some m } = .returned (ps1, none) ∧
      ps1.Configuration = some m1 ∧
      (∀ s, pc.Spec.MSIEndpoint = some s → m1.get "msi_endpoint" = some (.str s)) ∧
      (∀ s, pc.Spec.ClientID = some s → m1.get "client_id" = some (.str s)) ∧
      (∀ s, pc.Spec.Environment = some s → m1.get "environment" = some (.str s)) ∧
      (pc.Spec.MSIEndpoint = none → m1.get "msi_endpoint" = m.get "msi_endpoint") ∧
      (pc.Spec.ClientID = none → m1.get "client_id" = m.get "client_id") ∧
      (pc.Spec.Environment = none → m1.get "environment" = m.get "environment") := by
  refine ⟨_, _, msiAuth_of_tenantID_set pc _ m t rfl ht hne, rfl, ?_, ?_, ?_, ?_, ?_, ?_⟩ <;>
    simp only [ConfigMap.get_setOptional, ConfigMap.get_set, keyTerraformTenantID, keyUseMSI,
      keyMSIEndpoint, keyTerraformClientID, keyEnvironment] <;>
    cases pc.Spec.MSIEndpoint <;> cases pc.Spec.ClientID <;> cases pc.Spec.Environment <;>
    simp

/-- The witness of C4: `examplePC` has a nil MSI endpoint, an empty client ID and an
environment, and the map has an entry under `msi_endpoint` before the call. -/
theorem msiAuth_copies_optional_fields_witness :
    examplePC.Spec.ClientID = some "" ∧
    ∃ ps1 m1, msiAuth examplePC
        { exampleSetup with Configuration := some [("msi_endpoint", .str "http://old")] } =
          .returned (ps1, none) ∧
      ps1.Configuration = some m1 ∧
      (∀ s, examplePC.Spec.MSIEndpoint = some s → m1.get "msi_endpoint" = some (.str s)) ∧
      (∀ s, examplePC.Spec.ClientID = some s → m1.get "client_id" = some (.str s)) ∧
      (∀ s, examplePC.Spec.Environment = some s → m1.get "environment" = some (.str s)) ∧
      (examplePC.Spec.MSIEndpoint = none →
        m1.get "msi_endpoint" =
          ConfigMap.get [("msi_endpoint", .str "http://old")] "msi_endpoint") ∧
      (examplePC.Spec.ClientID = none →
        m1.get "client_id" = ConfigMap.get [("msi_endpoint", .str "http://old")] "client_id") ∧
      (examplePC.Spec.Environment = none →
        m1.get "environment" =
          ConfigMap.get [("msi_endpoint", .str "http://old")] "environment") :=
  ⟨rfl, msiAuth_copies_optional_fields examplePC exampleSetup
    [("msi_endpoint", .str "http://old")] "t-1" rfl (by decide)⟩

/-! ## The claims on the setup function -/

/-- C5: for a managed resource whose provider config reference is nil, the setup function
returns an error with message `no providerConfigRef provided`, makes no call on the client
(the outcome is the same with any other client), and the returned configuration is nil. -/
theorem setup_without_reference {σ : Type} (version providerSource providerVersion : String)
    (scheduler : σ) (client : Client) (mg : Managed)
    (href : mg.GetProviderConfigReference = none) :
    ∃ r, TerraformSetupBuilder version providerSource providerVersion scheduler client mg =
        .returned r ∧
      r.err.map GoError.Error = some "no providerConfigRef provided" ∧
      r.calls = [] ∧
      r.ps.Configuration = none ∧
      ∀ other : Client,
        TerraformSetupBuilder version providerSource providerVersion scheduler other mg =
          .returned r := by
  refine ⟨_, TerraformSetupBuilder_of_no_reference version providerSource providerVersion
    scheduler client mg href, rfl, rfl, rfl, ?_⟩
  intro other
  exact TerraformSetupBuilder_of_no_reference version providerSource providerVersion
    scheduler other mg href

/-- The witness of C5: the managed resource `exampleManagedNoRef`. -/
theorem setup_without_reference_witness :
    ∃ r, TerraformSetupBuilder "1.5.5" "hashicorp/azuread" "2.47.0" (7 : Nat) exampleClient
        exampleManagedNoRef = .returned r ∧
      r.err.map GoError.Error = some "no providerConfigRef provided" ∧
      r.calls = [] ∧
      r.ps.Configuration = none ∧
      ∀ other : Client,
        TerraformSetupBuilder "1.5.5" "hashicorp/azuread" "2.47.0" (7 : Nat) other
          exampleManagedNoRef = .returned r :=
  setup_without_reference "1.5.5" "hashicorp/azuread" "2.47.0" 7 exampleClient
    exampleManagedNoRef rfl

/-- C6, the claim as stated fails: the reference is present and the referenced
ProviderConfig has the non-empty tenant ID `t-1`, yet the setup function returns the error
of the failed usage tracking and does not succeed. -/
theorem setup_fails_when_track_fails :
    exampleManaged.GetProviderConfigReference = some { Name := "default" } ∧
    exampleClientTrackFails.Get { Namespace := "", Name := "default" } = .ok examplePC ∧
    examplePC.Spec.TenantID = some "t-1" ∧
    TerraformSetupBuilder "1.5.5" "hashicorp/azuread" "2.47.0" (7 : Nat)
        exampleClientTrackFails exampleManaged =
      .returned
        { ps := { Version := "1.5.5"
                  Requirement := { Source := "hashicorp/azuread", Version := "2.47.0" }
                  Configuration := none
                  Scheduler := 7 }
          err := some (.Wrap (.New "conflict") "cannot track ProviderConfig usage")
          calls := [.Get { Namespace := "", Name := "default" }, .Track exampleManaged] } ∧
    ¬ ∃ r, TerraformSetupBuilder "1.5.5" "hashicorp/azuread" "2.47.0" (7 : Nat)
        exampleClientTrackFails exampleManaged = .returned r ∧ r.err = none := by
  refine ⟨rfl, rfl, rfl, rfl, ?_⟩
  rintro ⟨r, hr, herr⟩
  have h : TerraformSetupBuilder "1.5.5" "hashicorp/azuread" "2.47.0" (7 : Nat)
      exampleClientTrackFails exampleManaged =
      .returned
        { ps := { Version := "1.5.5"
                  Requirement := { Source := "hashicorp/azuread", Version := "2.47.0" }
                  Configuration := none
                  Scheduler := 7 }
          err := some (.Wrap (.New "conflict") "cannot track ProviderConfig usage")
          calls := [.Get { Namespace := "", Name := "default" }, .Track exampleManaged] } :=
    rfl
  rw [h] at hr
  injection hr with hr
  rw [← hr] at herr
  cases herr

/-- C6 as amended: the setup function always returns, and it returns an error if and only if
the reference is missing, or `Get` of the referenced ProviderConfig fails, or `Get` succeeds
and then usage tracking fails or the tenant ID is nil or empty. -/
theorem setup_error_iff {σ : Type} (version providerSource providerVersion : String)
    (scheduler : σ) (client : Client) (mg : Managed) :
    ∃ r, TerraformSetupBuilder version providerSource providerVersion scheduler client mg =
        .returned r ∧
      (r.err ≠ none ↔
        (mg.GetProviderConfigReference = none ∨
          ∃ ref, mg.GetProviderConfigReference = some ref ∧
            ((∃ e, client.Get { Namespace := "", Name := ref.Name } = .error e) ∨
              ∃ pc, client.Get { Namespace := "", Name := ref.Name } = .ok pc ∧
                ((∃ e, client.Track mg = some e) ∨
                  pc.Spec.TenantID = none ∨ pc.Spec.TenantID = some "")))) := by
  cases href : mg.GetProviderConfigReference with
  | none =>
    refine ⟨_, TerraformSetupBuilder_of_no_reference version providerSource providerVersion
      scheduler client mg href, ?_⟩
    simp
  | some ref =>
    cases hget : client.Get { Namespace := "", Name := ref.Name } with
    | error e =>
      refine ⟨_, TerraformSetupBuilder_of_get_error version providerSource providerVersion
        scheduler client mg ref e href hget, ?_⟩
      simp [hget]
    | ok pc =>
      cases htrack : client.Track mg with
      | some e =>
        refine ⟨_, TerraformSetupBuilder_of_track_error version providerSource providerVersion
          scheduler client mg ref pc e href hget htrack, ?_⟩
        simp [hget]
      | none =>
        rw [TerraformSetupBuilder_of_tracked version providerSource providerVersion scheduler
          client mg ref pc href hget htrack]
        rcases tenantID_cases pc with h | ⟨t, ht, hne⟩
        · rw [msiAuth_of_tenantID_unset pc _ h]
          refine ⟨_, rfl, ?_⟩
          simp [Outcome.andThen, hget, h]
        · rw [msiAuth_of_tenantID_set pc _ ConfigMap.empty t rfl ht hne]
          refine ⟨_, rfl, ?_⟩
          simp [Outcome.andThen, hget, ht, hne]

/-- C8: the setup function checks its failure conditions in a fixed order. A nil reference
gives `no providerConfigRef provided`. Otherwise the ProviderConfig is looked up under the
reference's name with an empty namespace; a failure of `Get` with cause `e` gives
`cannot get referenced ProviderConfig: ` followed by the message of `e`, and `Track` is not
called. Otherwise a failure of `Track` with cause `e` gives
`cannot track ProviderConfig usage: ` followed by the message of `e`, whatever the tenant ID
of the ProviderConfig is. Only otherwise is the result that of `msiAuth` on the empty map. -/
theorem setup_failure_order {σ : Type} (version providerSource providerVersion : String)
    (scheduler : σ) (client : Client) (mg : Managed) :
    (mg.GetProviderConfigReference = none →
      ∃ r, TerraformSetupBuilder version providerSource providerVersion scheduler client mg =
          .returned r ∧
        r.err.map GoError.Error = some "no providerConfigRef provided" ∧
        r.calls = []) ∧
    (∀ ref e, mg.GetProviderConfigReference = some ref →
      client.Get { Namespace := "", Name := ref.Name } = .error e →
      ∃ r, TerraformSetupBuilder version providerSource providerVersion scheduler client mg =
          .returned r ∧
        r.err.map GoError.Error =
          some ("cannot get referenced ProviderConfig: " ++ e.Error) ∧
        r.calls = [.Get { Namespace := "", Name := ref.Name }]) ∧
    (∀ ref pc e, mg.GetProviderConfigReference = some ref →
      client.Get { Namespace := "", Name := ref.Name } = .ok pc →
      client.Track mg = some e →
      ∃ r, TerraformSetupBuilder version providerSource providerVersion scheduler client mg =
          .returned r ∧
        r.err.map GoError.Error = some ("cannot track ProviderConfig usage: " ++ e.Error) ∧
        r.calls = [.Get { Namespace := "", Name := ref.Name }, .Track mg] ∧
        r.ps.Configuration = none) ∧
    (∀ ref pc, mg.GetProviderConfigReference = some ref →
      client.Get { Namespace := "", Name := ref.Name } = .ok pc →
      client.Track mg = none →
      ∃ ps1 err,
        msiAuth pc
          { Version := version
            Requirement := { Source := providerSource, Version := providerVersion }
            Configuration := some ConfigMap.empty
            Scheduler := scheduler } = .returned (ps1, err) ∧
        TerraformSetupBuilder version providerSource providerVersion scheduler client mg =
          .returned
            { ps := ps1, err := err,
              calls := [.Get { Namespace := "", Name := ref.Name }, .Track mg] }) := by
  refine ⟨?_, ?_, ?_, ?_⟩
  · intro href
    exact ⟨_, TerraformSetupBuilder_of_no_reference version providerSource providerVersion
      scheduler client mg href, rfl, rfl⟩
  · intro ref e href hget
    exact ⟨_, TerraformSetupBuilder_of_get_error version providerSource providerVersion
      scheduler client mg ref e href hget, rfl, rfl⟩
  · intro ref pc e href hget htrack
    exact ⟨_, TerraformSetupBuilder_of_track_error version providerSource providerVersion
      scheduler client mg ref pc e href hget htrack, rfl, rfl, rfl⟩
  · intro ref pc href hget htrack
    rw [TerraformSetupBuilder_of_tracked version providerSource providerVersion scheduler
      client mg ref pc href hget htrack]
    rcases tenantID_cases pc with h | ⟨t, ht, hne⟩
    · rw [msiAuth_of_tenantID_unset pc _ h]
      exact ⟨_, _, rfl, rfl⟩
    · rw [msiAuth_of_tenantID_set pc _ ConfigMap.empty t rfl ht hne]
      exact ⟨_, _, rfl, rfl⟩

/-- C9: two ProviderConfigs that agree on `TenantID`, `MSIEndpoint`, `ClientID` and
`Environment` give the same outcome of `msiAuth` on every setup (the same error or success
and the same map); and a nil or empty tenant ID gives the tenant error whatever the
credential source of the ProviderConfig is set to. -/
theorem msiAuth_depends_only_on_four_fields {σ : Type} (pc1 pc2 : ProviderConfig)
    (ps : Setup σ)
    (hTenant : pc1.Spec.TenantID = pc2.Spec.TenantID)
    (hEndpoint : pc1.Spec.MSIEndpoint = pc2.Spec.MSIEndpoint)
    (hClient : pc1.Spec.ClientID = pc2.Spec.ClientID)
    (hEnvironment : pc1.Spec.Environment = pc2.Spec.Environment) :
    msiAuth pc1 ps = msiAuth pc2 ps ∧
    (∀ source : String, pc1.Spec.TenantID = none ∨ pc1.Spec.TenantID = some "" →
      msiAuth { pc1 with Spec := { pc1.Spec with Credentials := { Source := source } } } ps =
        .returned (ps, some (.New
          "tenant ID must be set in ProviderConfig when credential source is InjectedIdentity, OIDCTokenFile or Upbound"))) := by
  constructor
  · simp only [msiAuth, hTenant, hEndpoint, hClient, hEnvironment]
  · intro source h
    exact msiAuth_of_tenantID_unset _ ps h

/-- The witness of C9: `examplePC` and `examplePCSecret` differ in name and credential
source only. -/
theorem msiAuth_depends_only_on_four_fields_witness :
    examplePC ≠ examplePCSecret ∧
    msiAuth examplePC exampleSetup = msiAuth examplePCSecret exampleSetup ∧
    (∀ source : String, examplePC.Spec.TenantID = none ∨ examplePC.Spec.TenantID = some "" →
      msiAuth { examplePC with
          Spec := { examplePC.Spec with Credentials := { Source := source } } } exampleSetup =
        .returned (exampleSetup, some (.New
          "tenant ID must be set in ProviderConfig when credential source is InjectedIdentity, OIDCTokenFile or Upbound"))) :=
  ⟨by decide, msiAuth_depends_only_on_four_fields examplePC examplePCSecret exampleSetup
    rfl rfl rfl rfl⟩

/-- C10: on every path the setup function returns a setup whose `Version`,
`Requirement.Source`, `Requirement.Version` and `Scheduler` are the four arguments of
`TerraformSetupBuilder`, so that only `Configuration` differs between paths; and when the
tenant ID check fails, the returned configuration is the empty non-nil map. -/
theorem setup_frame {σ : Type} (version providerSource providerVersion : String)
    (scheduler : σ) (client : Client) (mg : Managed) :
    ∃ r, TerraformSetupBuilder version providerSource providerVersion scheduler client mg =
        .returned r ∧
      r.ps.Version = version ∧
      r.ps.Requirement.Source = providerSource ∧
      r.ps.Requirement.Version = providerVersion ∧
      r.ps.Scheduler = scheduler ∧
      r.ps = { Version := version
               Requirement := { Source := providerSource, Version := providerVersion }
               Configuration := r.ps.Configuration
               Scheduler := scheduler } ∧
      (∀ ref pc, mg.GetProviderConfigReference = some ref →
        client.Get { Namespace := "", Name := ref.Name } = .ok pc →
        client.Track mg = none →
        pc.Spec.TenantID = none ∨ pc.Spec.TenantID = some "" →
        r.ps.Configuration = some [] ∧ r.err = some (.New errTenantIDNotSet)) := by
  cases href : mg.GetProviderConfigReference with
  | none =>
    refine ⟨_, TerraformSetupBuilder_of_no_reference version providerSource providerVersion
      scheduler client mg href, rfl, rfl, rfl, rfl, rfl, ?_⟩
    intro ref pc h
    cases h
  | some ref =>
    cases hget : client.Get { Namespace := "", Name := ref.Name } with
    | error e =>
      refine ⟨_, TerraformSetupBuilder_of_get_error version providerSource providerVersion
        scheduler client mg ref e href hget, rfl, rfl, rfl, rfl, rfl, ?_⟩
      intro ref2 pc h hget2
      cases h
      rw [hget] at hget2
      cases hget2
    | ok pc =>
      cases htrack : client.Track mg with
      | some e =>
        refine ⟨_, TerraformSetupBuilder_of_track_error version providerSource providerVersion
          scheduler client mg ref pc e href hget htrack, rfl, rfl, rfl, rfl, rfl, ?_⟩
        intro ref2 pc2 _ _ h
        cases h
      | none =>
        rw [TerraformSetupBuilder_of_tracked version providerSource providerVersion scheduler
          client mg ref pc href hget htrack]
        rcases tenantID_cases pc with h | ⟨t, ht, hne⟩
        · rw [msiAuth_of_tenantID_unset pc _ h]
          refine ⟨_, rfl, rfl, rfl, rfl, rfl, rfl, ?_⟩
          intro _ _ _ _ _ _
          exact ⟨rfl, rfl⟩
        · rw [msiAuth_of_tenantID_set pc _ ConfigMap.empty t rfl ht hne]
          refine ⟨_, rfl, rfl, rfl, rfl, rfl, rfl, ?_⟩
          intro ref2 pc2 href2 hget2 _ h2
          cases href2
          rw [hget] at hget2
          cases hget2
          rcases h2 with h2 | h2
          · rw [h2] at ht
            cases ht
          · rw [h2] at ht
            exact absurd (Option.some.inj ht).symm hne

/-! ## The claim on `PermissionGrantParameters` -/

theorem FieldDecl.serialised_of_omitEmpty (f : FieldDecl) (p : PermissionGrantParameters)
    (h1 : f.jsonTag ≠ "-") (h2 : f.jsonOmitEmpty = true) :
    f.serialised p = !f.isEmptyValue p := by
  simp [FieldDecl.serialised, h1, h2]

theorem FieldDecl.serialised_of_not_omitEmpty (f : FieldDecl) (p : PermissionGrantParameters)
    (h1 : f.jsonTag ≠ "-") (h2 : f.jsonOmitEmpty = false) :
    f.serialised p = true := by
  simp [FieldDecl.serialised, h1, h2]

theorem Option.not_isNone_eq_true_iff {α : Type} (o : Option α) :
    (!o.isNone) = true ↔ o ≠ none := by
  cases o <;> simp

theorem PermissionGrantParameters.mem_jsonKeys (p : PermissionGrantParameters) (k : String) :
    k ∈ p.jsonKeys ↔
      (k = fieldClaimValues.jsonName ∧ fieldClaimValues.serialised p = true) ∨
      (k = fieldResourceServicePrincipalObjectID.jsonName ∧ fieldResourceServicePrincipalObjectID.serialised p = true) ∨
      (k = fieldResourceServicePrincipalObjectIDRef.jsonName ∧ fieldResourceServicePrincipalObjectIDRef.serialised p = true) ∨
      (k = fieldResourceServicePrincipalObjectIDSelector.jsonName ∧ fieldResourceServicePrincipalObjectIDSelector.serialised p = true) ∨
      (k = fieldServicePrincipalObjectID.jsonName ∧ fieldServicePrincipalObjectID.serialised p = true) ∨
      (k = fieldServicePrincipalObjectIDRef.jsonName ∧ fieldServicePrincipalObjectIDRef.serialised p = true) ∨
      (k = fieldServicePrincipalObjectIDSelector.jsonName ∧ fieldServicePrincipalObjectIDSelector.serialised p = true) ∨
      (k = fieldUserObjectID.jsonName ∧ fieldUserObjectID.serialised p = true) := by
  simp only [PermissionGrantParameters.jsonKeys, PermissionGrantParameters.fields,
    List.mem_map, List.mem_filter, List.mem_cons, List.mem_singleton]
  constructor
  · rintro ⟨f, ⟨hf, hs⟩, hk⟩
    subst hk
    rcases hf with rfl | rfl | rfl | rfl | rfl | rfl | rfl | rfl | hf
    all_goals first
      | (simp only [List.not_mem_nil] at hf)
      | (simp only [hs, and_self, true_or, or_true])
  · rintro (h | h | h | h | h | h | h | h)
    all_goals exact ⟨_, ⟨by simp, h.2⟩, h.1.symm⟩

theorem PermissionGrantParameters.jsonName_fieldClaimValues :
    fieldClaimValues.jsonName = "claimValues" := by decide

theorem PermissionGrantParameters.serialised_fieldClaimValues (p : PermissionGrantParameters) :
    fieldClaimValues.serialised p = true :=
  FieldDecl.serialised_of_not_omitEmpty _ p (by decide) (by decide)

theorem PermissionGrantParameters.jsonName_fieldResourceServicePrincipalObjectID :
    fieldResourceServicePrincipalObjectID.jsonName = "resourceServicePrincipalObjectId" := by decide

theorem PermissionGrantParameters.serialised_fieldResourceServicePrincipalObjectID (p : PermissionGrantParameters) :
    fieldResourceServicePrincipalObjectID.serialised p = !p.ResourceServicePrincipalObjectID.isNone :=
  FieldDecl.serialised_of_omitEmpty _ p (by decide) (by decide)

theorem PermissionGrantParameters.jsonName_fieldResourceServicePrincipalObjectIDRef :
    fieldResourceServicePrincipalObjectIDRef.jsonName = "resourceServicePrincipalObjectIdRef" := by decide

theorem PermissionGrantParameters.serialised_fieldResourceServicePrincipalObjectIDRef (p : PermissionGrantParameters) :
    fieldResourceServicePrincipalObjectIDRef.serialised p = !p.ResourceServicePrincipalObjectIDRef.isNone :=
  FieldDecl.serialised_of_omitEmpty _ p (by decide) (by decide)

theorem PermissionGrantParameters.jsonName_fieldResourceServicePrincipalObjectIDSelector :
    fieldResourceServicePrincipalObjectIDSelector.jsonName = "resourceServicePrincipalObjectIdSelector" := by decide

theorem PermissionGrantParameters.serialised_fieldResourceServicePrincipalObjectIDSelector (p : PermissionGrantParameters) :
    fieldResourceServicePrincipalObjectIDSelector.serialised p = !p.ResourceServicePrincipalObjectIDSelector.isNone :=
  FieldDecl.serialised_of_omitEmpty _ p (by decide) (by decide)

theorem PermissionGrantParameters.jsonName_fieldServicePrincipalObjectID :
    fieldServicePrincipalObjectID.jsonName = "servicePrincipalObjectId" := by decide

theorem PermissionGrantParameters.serialised_fieldServicePrincipalObjectID (p : PermissionGrantParameters) :
    fieldServicePrincipalObjectID.serialised p = !p.ServicePrincipalObjectID.isNone :=
  FieldDecl.serialised_of_omitEmpty _ p (by decide) (by decide)

theorem PermissionGrantParameters.jsonName_fieldServicePrincipalObjectIDRef :
    fieldServicePrincipalObjectIDRef.jsonName = "servicePrincipalObjectIdRef" := by decide

theorem PermissionGrantParameters.serialised_fieldServicePrincipalObjectIDRef (p : PermissionGrantParameters) :
    fieldServicePrincipalObjectIDRef.serialised p = !p.ServicePrincipalObjectIDRef.isNone :=
  FieldDecl.serialised_of_omitEmpty _ p (by decide) (by decide)

theorem PermissionGrantParameters.jsonName_fieldServicePrincipalObjectIDSelector :
    fieldServicePrincipalObjectIDSelector.jsonName = "servicePrincipalObjectIdSelector" := by decide

theorem PermissionGrantParameters.serialised_fieldServicePrincipalObjectIDSelector (p : PermissionGrantParameters) :
    fieldServicePrincipalObjectIDSelector.serialised p = !p.ServicePrincipalObjectIDSelector.isNone :=
  FieldDecl.serialised_of_omitEmpty _ p (by decide) (by decide)

theorem PermissionGrantParameters.jsonName_fieldUserObjectID :
    fieldUserObjectID.jsonName = "userObjectId" := by decide

theorem PermissionGrantParameters.serialised_fieldUserObjectID (p : PermissionGrantParameters) :
    fieldUserObjectID.serialised p = !p.UserObjectID.isNone :=
  FieldDecl.serialised_of_omitEmpty _ p (by decide) (by decide)

/-- The membership of a key in the JSON form, in terms of the fields of `p`. -/
theorem PermissionGrantParameters.mem_jsonKeys_iff (p : PermissionGrantParameters)
    (k : String) :
    k ∈ p.jsonKeys ↔
      k = "claimValues" ∨
      (k = "resourceServicePrincipalObjectId" ∧ p.ResourceServicePrincipalObjectID ≠ none) ∨
      (k = "resourceServicePrincipalObjectIdRef" ∧ p.ResourceServicePrincipalObjectIDRef ≠ none) ∨
      (k = "resourceServicePrincipalObjectIdSelector" ∧ p.ResourceServicePrincipalObjectIDSelector ≠ none) ∨
      (k = "servicePrincipalObjectId" ∧ p.ServicePrincipalObjectID ≠ none) ∨
      (k = "servicePrincipalObjectIdRef" ∧ p.ServicePrincipalObjectIDRef ≠ none) ∨
      (k = "servicePrincipalObjectIdSelector" ∧ p.ServicePrincipalObjectIDSelector ≠ none) ∨
      (k = "userObjectId" ∧ p.UserObjectID ≠ none) := by
  rw [PermissionGrantParameters.mem_jsonKeys]
  simp only [jsonName_fieldClaimValues, serialised_fieldClaimValues,
    jsonName_fieldResourceServicePrincipalObjectID, serialised_fieldResourceServicePrincipalObjectID,
    jsonName_fieldResourceServicePrincipalObjectIDRef, serialised_fieldResourceServicePrincipalObjectIDRef,
    jsonName_fieldResourceServicePrincipalObjectIDSelector, serialised_fieldResourceServicePrincipalObjectIDSelector,
    jsonName_fieldServicePrincipalObjectID, serialised_fieldServicePrincipalObjectID,
    jsonName_fieldServicePrincipalObjectIDRef, serialised_fieldServicePrincipalObjectIDRef,
    jsonName_fieldServicePrincipalObjectIDSelector, serialised_fieldServicePrincipalObjectIDSelector,
    jsonName_fieldUserObjectID, serialised_fieldUserObjectID,
    Option.not_isNone_eq_true_iff, and_true]

/-- C7: among the parameters of PermissionGrant, `claimValues` is the only field marked
required and the only one whose `json` tag has no `omitempty`, so that it is always in the
JSON form; each of the seven other fields is marked optional and is in the JSON form exactly
when it is not nil; and the `Ref` and `Selector` fields, and only they, are mapped to no
Terraform attribute. -/
theorem permissionGrantParameters_contract (p : PermissionGrantParameters) :
    PermissionGrantParameters.fields.map
        (fun f => (f.marker, f.jsonName, f.jsonOmitEmpty, f.tfAttribute)) =
      [ (.Required, "claimValues", false, some "claim_values"),
        (.Optional, "resourceServicePrincipalObjectId", true,
          some "resource_service_principal_object_id"),
        (.Optional, "resourceServicePrincipalObjectIdRef", true, none),
        (.Optional, "resourceServicePrincipalObjectIdSelector", true, none),
        (.Optional, "servicePrincipalObjectId", true, some "service_principal_object_id"),
        (.Optional, "servicePrincipalObjectIdRef", true, none),
        (.Optional, "servicePrincipalObjectIdSelector", true, none),
        (.Optional, "userObjectId", true, some "user_object_id") ] ∧
    (∀ f ∈ PermissionGrantParameters.fields,
      (f.marker = .Required ↔ f.jsonName = "claimValues") ∧
      (f.jsonOmitEmpty = false ↔ f.jsonName = "claimValues") ∧
      (f.tfAttribute = none ↔
        f.jsonName ∈ ["resourceServicePrincipalObjectIdRef",
          "resourceServicePrincipalObjectIdSelector", "servicePrincipalObjectIdRef",
          "servicePrincipalObjectIdSelector"])) ∧
    "claimValues" ∈ p.jsonKeys ∧
    ("resourceServicePrincipalObjectId" ∈ p.jsonKeys ↔ p.ResourceServicePrincipalObjectID ≠ none) ∧
    ("resourceServicePrincipalObjectIdRef" ∈ p.jsonKeys ↔ p.ResourceServicePrincipalObjectIDRef ≠ none) ∧
    ("resourceServicePrincipalObjectIdSelector" ∈ p.jsonKeys ↔ p.ResourceServicePrincipalObjectIDSelector ≠ none) ∧
    ("servicePrincipalObjectId" ∈ p.jsonKeys ↔ p.ServicePrincipalObjectID ≠ none) ∧
    ("servicePrincipalObjectIdRef" ∈ p.jsonKeys ↔ p.ServicePrincipalObjectIDRef ≠ none) ∧
    ("servicePrincipalObjectIdSelector" ∈ p.jsonKeys ↔ p.ServicePrincipalObjectIDSelector ≠ none) ∧
    ("userObjectId" ∈ p.jsonKeys ↔ p.UserObjectID ≠ none) := by
  refine ⟨by decide, by decide, ?_, ?_, ?_, ?_, ?_, ?_, ?_, ?_⟩ <;>
    rw [PermissionGrantParameters.mem_jsonKeys_iff] <;> simp

end AzureAD
